import Mathlib

/-!
Verification of the pendulum-equations module (`pyndulum/pendulum_equations.py`)
against its specification.  Each Python function is embedded as a Lean
definition over the real numbers, mirroring the source line by line:
the module constants `G` and `SECONDS_IN_MINUTE`, and the six pure
functions `get_period`, `max_height`, `max_speed`, `check_small_angle`,
`bpm`, `calc_energy`.
-/

namespace Pyndulum

noncomputable section

/-- `G = 9.81` — acceleration due to gravity, a module constant. -/
def G : ℝ := 9.81

/-- `SECONDS_IN_MINUTE = 60.0` — a module constant. -/
def SECONDS_IN_MINUTE : ℝ := 60.0

/-- `get_period(length)`: `return 2.0 * np.pi * np.sqrt(length / G)`. -/
def get_period (length : ℝ) : ℝ :=
  2.0 * Real.pi * Real.sqrt (length / G)

/-- `max_height(length, theta)`: `return length * np.cos(theta)`. -/
def max_height (length theta : ℝ) : ℝ :=
  length * Real.cos theta

/-- `max_speed(length, theta)`: `return np.sqrt(2.0 * G * max_height(length, theta))`. -/
def max_speed (length theta : ℝ) : ℝ :=
  Real.sqrt (2.0 * G * max_height length theta)

open Classical in
/-- `check_small_angle(theta)`: `if theta <= np.pi / 1800.0: return True` else
`return False`. -/
def check_small_angle (theta : ℝ) : Bool :=
  if theta ≤ Real.pi / 1800.0 then true else false

theorem check_small_angle_eq_true_iff (theta : ℝ) :
    check_small_angle theta = true ↔ theta ≤ Real.pi / 1800 := by
  have h : (1800.0 : ℝ) = 1800 := by norm_num
  simp only [check_small_angle, h]
  split <;> simp_all

/-- `bpm(length)`: `return SECONDS_IN_MINUTE / get_period(length)`. -/
def bpm (length : ℝ) : ℝ :=
  SECONDS_IN_MINUTE / get_period length

/-- `calc_energy(mass, theta, length)`: `return 0.5 * mass * max_speed(length, theta) ** 2`. -/
def calc_energy (mass theta length : ℝ) : ℝ :=
  0.5 * mass * max_speed length theta ^ 2

theorem get_period_one_bounds :
    2.006 < get_period 1 ∧ get_period 1 < 2.0062 := by
  have hgp : get_period 1 = 2 * Real.pi * Real.sqrt (1 / 9.81) := by
    simp only [get_period, G]
    norm_num
  have hs_pos : (0:ℝ) < Real.sqrt (1 / 9.81) :=
    Real.sqrt_pos.mpr (by norm_num)
  have hs_lo : (0.319275 : ℝ) < Real.sqrt (1 / 9.81) := by
    rw [Real.lt_sqrt (by norm_num)]
    norm_num
  have hs_hi : Real.sqrt ((1:ℝ) / 9.81) < 0.319277 := by
    rw [Real.sqrt_lt' (by norm_num)]
    norm_num
  have hpi_lo := Real.pi_gt_d6
  have hpi_hi := Real.pi_lt_d6
  have hlo : (3.141592 : ℝ) * 0.319275 < Real.pi * Real.sqrt (1 / 9.81) := by
    calc (3.141592 : ℝ) * 0.319275
        < Real.pi * 0.319275 := by
          exact mul_lt_mul_of_pos_right hpi_lo (by norm_num)
      _ < Real.pi * Real.sqrt (1 / 9.81) :=
          mul_lt_mul_of_pos_left hs_lo Real.pi_pos
  have hhi : Real.pi * Real.sqrt ((1:ℝ) / 9.81) < 3.141593 * 0.319277 := by
    calc Real.pi * Real.sqrt ((1:ℝ) / 9.81)
        < Real.pi * 0.319277 := mul_lt_mul_of_pos_left hs_hi Real.pi_pos
      _ < (3.141593 : ℝ) * 0.319277 :=
          mul_lt_mul_of_pos_right hpi_hi (by norm_num)
  rw [hgp]
  constructor
  · nlinarith [hlo]
  · nlinarith [hhi]

/-- Claim C2: `check_small_angle theta` returns `true` iff `theta ≤ π/1800`,
with the boundary itself and `0` included, and `false` for
`π/1800 + eps` whenever `eps > 0`. -/
theorem check_small_angle_spec :
    (∀ theta : ℝ, check_small_angle theta = true ↔ theta ≤ Real.pi / 1800) ∧
    check_small_angle (Real.pi / 1800) = true ∧
    check_small_angle 0 = true ∧
    ∀ eps : ℝ, 0 < eps → check_small_angle (Real.pi / 1800 + eps) = false := by
  refine ⟨check_small_angle_eq_true_iff, ?_, ?_, ?_⟩
  · exact (check_small_angle_eq_true_iff _).mpr le_rfl
  · exact (check_small_angle_eq_true_iff _).mpr (by positivity)
  · intro eps heps
    have h : ¬ check_small_angle (Real.pi / 1800 + eps) = true := by
      rw [check_small_angle_eq_true_iff]
      intro hle
      linarith
    simpa using h

/-- Concrete instance of C2: `check_small_angle (π/1800 + 1) = false`. -/
theorem check_small_angle_spec_witness :
    check_small_angle (Real.pi / 1800 + 1) = false :=
  check_small_angle_spec.2.2.2 1 one_pos

/-- Claim C3: `max_speed length theta = sqrt (2 * 9.81 * max_height length theta)`
for all inputs, and `max_speed 1 (π/2) = 0` since `cos (π/2) = 0`. -/
theorem max_speed_spec :
    (∀ length theta : ℝ,
        max_speed length theta = Real.sqrt (2 * 9.81 * max_height length theta)) ∧
    max_speed 1 (Real.pi / 2) = 0 := by
  constructor
  · intro length theta
    norm_num [max_speed, G]
  · simp [max_speed, max_height, Real.cos_pi_div_two]

/-- Claim C4: `get_period` is positive on positive lengths and strictly
monotonically increasing in the length. -/
theorem get_period_pos_mono :
    (∀ length : ℝ, 0 < length → 0 < get_period length) ∧
    ∀ a b : ℝ, 0 < a → a < b → get_period a < get_period b := by
  have hG : (0:ℝ) < G := by norm_num [G]
  constructor
  · intro l hl
    have hs : 0 < Real.sqrt (l / G) := Real.sqrt_pos.mpr (div_pos hl hG)
    have h2 : (0:ℝ) < 2.0 * Real.pi := by positivity
    exact mul_pos h2 hs
  · intro a b ha hab
    have h1 : a / G < b / G := by
      rw [div_lt_div_iff_of_pos_right hG]
      exact hab
    have h2 : Real.sqrt (a / G) < Real.sqrt (b / G) :=
      Real.sqrt_lt_sqrt (le_of_lt (div_pos ha hG)) h1
    exact mul_lt_mul_of_pos_left h2 (by positivity)

/-- Concrete instance of C4 at lengths 1 and 2. -/
theorem get_period_pos_mono_witness :
    0 < get_period 1 ∧ get_period 1 < get_period 2 :=
  ⟨get_period_pos_mono.1 1 one_pos,
   get_period_pos_mono.2 1 2 one_pos one_lt_two⟩

/-- Claim C5 counterexample: `get_period 1` differs from `2.0064` by more
than `10⁻⁴`, so it is not `2.0064` within floating-point tolerance. -/
theorem get_period_one_not_2_0064 :
    1 / 10000 < |get_period 1 - 2.0064| := by
  have hup : get_period 1 < 2.0062 := get_period_one_bounds.2
  rw [abs_sub_comm, abs_of_pos (by linarith)]
  linarith

/-- Claim C5 (amended): `get_period length = 2π·√(length/9.81)` for every
length, and `get_period 1` lies strictly between `2.006` and `2.0062`
(the true value is ≈ 2.00607, not 2.0064). -/
theorem get_period_formula_and_value :
    (∀ length : ℝ, get_period length = 2 * Real.pi * Real.sqrt (length / 9.81)) ∧
    2.006 < get_period 1 ∧ get_period 1 < 2.0062 := by
  refine ⟨?_, get_period_one_bounds⟩
  intro l
  norm_num [get_period, G]

/-- Claim C6: `max_height length theta = length * cos theta` for all inputs,
and `max_height 1 0 = 1`. -/
theorem max_height_spec :
    (∀ length theta : ℝ, max_height length theta = length * Real.cos theta) ∧
    max_height 1 0 = 1 := by
  exact ⟨fun _ _ => rfl, by simp [max_height]⟩

/-- Claim C7: `bpm length = 60 / get_period length` for every length, by
construction. -/
theorem bpm_spec :
    ∀ length : ℝ, bpm length = 60 / get_period length := by
  intro l
  norm_num [bpm, SECONDS_IN_MINUTE]

/-- Claim C8: `calc_energy mass theta length = 0.5 * mass * max_speed length theta ^ 2`
for all inputs, by construction. -/
theorem calc_energy_spec :
    ∀ mass theta length : ℝ,
      calc_energy mass theta length = 0.5 * mass * max_speed length theta ^ 2 :=
  fun _ _ _ => rfl

/-- Claim C9: `check_small_angle` returns `true` for every `theta ≤ 0`,
including `-π`, because the comparison uses the signed value of theta. -/
theorem check_small_angle_nonpos :
    (∀ theta : ℝ, theta ≤ 0 → check_small_angle theta = true) ∧
    check_small_angle (-Real.pi) = true := by
  have h : ∀ theta : ℝ, theta ≤ 0 → check_small_angle theta = true := by
    intro t ht
    exact (check_small_angle_eq_true_iff t).mpr (le_trans ht (by positivity))
  exact ⟨h, h _ (neg_nonpos.mpr Real.pi_pos.le)⟩

/-- Concrete instance of C9 at `theta = -1`. -/
theorem check_small_angle_nonpos_witness :
    check_small_angle (-1) = true :=
  check_small_angle_nonpos.1 (-1) (by norm_num)

/-- Claim C10: when `length * cos theta ≥ 0`, squaring the square root in
`max_speed` cancels, giving `calc_energy mass theta length =
mass * 9.81 * length * cos theta` exactly. -/
theorem calc_energy_closed_form :
    ∀ mass theta length : ℝ, 0 ≤ length * Real.cos theta →
      calc_energy mass theta length = mass * 9.81 * length * Real.cos theta := by
  intro m t l h
  simp only [calc_energy, max_speed, max_height, G]
  rw [Real.sq_sqrt (by nlinarith)]
  ring

/-- Concrete instance of C10: `calc_energy 1 0 1 = 9.81`. -/
theorem calc_energy_closed_form_witness :
    calc_energy 1 0 1 = 1 * 9.81 * 1 * Real.cos 0 :=
  calc_energy_closed_form 1 0 1 (by norm_num)

end

end Pyndulum
